import Mathlib

/-!
Formal model of the librale replicated key-value service (pgElephant/rale),
shallowly embedded from the C sources in `src/librale/src`.

Modelling conventions:
* C strings are modelled either as `List Nat` (their byte values, `Bytes`)
  or as Lean `String`s whose character sequence mirrors the ASCII bytes;
  `strlen` becomes the list / character-sequence length.
* Machine integers are modelled as `Int` / `Nat`; unsigned wrap-around is
  made explicit with `% 4294967296` (`unsigned int`) and explicit casts
  for `uint16_t` / `uint32_t` conversions.
* Files written with `fprintf("%d %d %d %d %d\n", ...)` and read back with
  `fscanf`/`strtok` + `atoi` are modelled at the token level, as the list
  of integers carried by the single line (`Option (List Int)`, `none`
  meaning the file is absent).
* Fallible C functions returning `int` status codes are modelled as
  functions returning the status together with the updated state.
* Network sends (`tcp_client_send` / `tcp_server_send`) are modelled as an
  outbox: a list of (target index, message) pairs appended to the state.
-/

namespace Rale

/-- Byte string: the bytes of a C string (excluding the NUL terminator). -/
abbrev Bytes := List Nat

/-- `HASH_SIZE` from hash.h. -/
def HASH_SIZE : Nat := 1024

/-- `MAX_KEY_SIZE` from hash.h. -/
def MAX_KEY_SIZE : Nat := 255

/-- `MAX_VALUE_SIZE` from hash.h. -/
def MAX_VALUE_SIZE : Nat := 1024

/-- `MAX_NODES` from config.h. -/
def MAX_NODES : Nat := 10

/-- `TCP_SERVER_MAX_CLIENTS` (server slot count). -/
def TCP_SERVER_MAX_CLIENTS : Nat := 5

/-- `REPLICATION_MESSAGE_BUFFER_SIZE` from dstore.c. -/
def REPLICATION_MESSAGE_BUFFER_SIZE : Nat := MAX_KEY_SIZE + MAX_VALUE_SIZE + 10

/-- Modulus of C `unsigned int` arithmetic. -/
def UINT32_MOD : Nat := 4294967296

/-- `RALE_SUCCESS` status code (librale.h). -/
def RALE_SUCCESS : Int := 0

/-- `RALE_ERROR_GENERAL` status code (librale.h). -/
def RALE_ERROR_GENERAL : Int := -1

/-- `strlcpy(dst, src, size)`: copies at most `size - 1` bytes of `src`. -/
def strlcpy (src : Bytes) (size : Nat) : Bytes := src.take (size - 1)

/-- hash.c `hash_func` (DJB2: `hash = hash * 33 + c` from 5381), used by
`hash_get`. Arithmetic is on `unsigned int`, hence the `% UINT32_MOD`. -/
def hash_func (key : Bytes) : Nat :=
  (key.foldl (fun h c => (h * 33 + c) % UINT32_MOD) 5381) % HASH_SIZE

/-- hash.c `hash` (`hash_val = (hash_val << 5) + c` from 0), used by
`hash_put` and `hash_delete`. -/
def hash (key : Bytes) : Nat :=
  (key.foldl (fun h c => (h * 32 + c) % UINT32_MOD) 0) % HASH_SIZE

/-- The chained hash table of hash.c: bucket index to entry chain. -/
def HashTable := Nat → List (Bytes × Bytes)

/-- A table with all buckets empty (`hash_init`). -/
def hash_empty : HashTable := fun _ => []

/-- The overwrite scan of `hash_put`: replace the value of the first entry
in the chain whose key matches (`strcmp == 0`); `none` if no entry matches. -/
def bucketPut (key value : Bytes) : List (Bytes × Bytes) → Option (List (Bytes × Bytes))
  | [] => none
  | e :: rest =>
    if e.1 = key then some ((e.1, strlcpy value MAX_VALUE_SIZE) :: rest)
    else
      match bucketPut key value rest with
      | some r => some (e :: r)
      | none => none

/-- hash.c `hash_put`: reject oversized keys/values, overwrite a matching
entry in bucket `hash key`, or prepend a fresh entry to that bucket. -/
def hash_put (table : HashTable) (key value : Bytes) : Int × HashTable :=
  if MAX_KEY_SIZE ≤ key.length ∨ MAX_VALUE_SIZE ≤ value.length then (-1, table)
  else
    let index := hash key
    match bucketPut key value (table index) with
    | some b => (0, fun j => if j = index then b else table j)
    | none =>
      let entry := (strlcpy key MAX_KEY_SIZE, strlcpy value MAX_VALUE_SIZE)
      (0, fun j => if j = index then entry :: table index else table j)

/-- The lookup scan shared by `hash_get`: first entry with matching key. -/
def bucketFind (key : Bytes) : List (Bytes × Bytes) → Option Bytes
  | [] => none
  | e :: rest => if e.1 = key then some e.2 else bucketFind key rest

/-- hash.c `hash_get`: look the key up in bucket `hash_func key` and copy
the value into a caller buffer of `value_size` bytes (truncating). -/
def hash_get (table : HashTable) (key : Bytes) (value_size : Nat) : Option Bytes :=
  if value_size = 0 then none
  else
    match bucketFind key (table (hash_func key)) with
    | some v => some (strlcpy v value_size)
    | none => none

/-- The unlink scan of `hash_delete`: remove the first matching entry. -/
def bucketDelete (key : Bytes) : List (Bytes × Bytes) → Option (List (Bytes × Bytes))
  | [] => none
  | e :: rest =>
    if e.1 = key then some rest
    else
      match bucketDelete key rest with
      | some r => some (e :: r)
      | none => none

/-- hash.c `hash_delete`: splice the matching entry out of bucket
`hash key`; `-1` when the key is absent from that bucket. -/
def hash_delete (table : HashTable) (key : Bytes) : Int × HashTable :=
  let index := hash key
  match bucketDelete key (table index) with
  | some b => (0, fun j => if j = index then b else table j)
  | none => (-1, table)

/-- db.c `db_insert`: calls `hash_put` and unconditionally returns
`DB_SUCCESS` (0), discarding the `hash_put` status. -/
def db_insert (table : HashTable) (key value : Bytes) : Int × HashTable :=
  (0, (hash_put table key value).2)

/-- db.c `db_get`: delegates to `hash_get` (error iff lookup fails). -/
def db_get (table : HashTable) (key : Bytes) (value_size : Nat) : Option Bytes :=
  hash_get table key value_size

/-- db.c `db_delete`: calls `hash_delete` and unconditionally returns
`DB_SUCCESS` (0), discarding the `hash_delete` status. -/
def db_delete (table : HashTable) (key : Bytes) : Int × HashTable :=
  (0, (hash_delete table key).2)

end Rale

namespace Rale

/-- The two bucket indices computed for the one-byte key "a" (byte 97). -/
theorem hash_bucket_values : hash [97] = 97 ∧ hash_func [97] = 518 := by decide

/-- C1: the write path (`hash_put` via `db_insert`) files the pair under
bucket `hash key`, while the read path (`hash_get` via `db_get`) searches
bucket `hash_func key`. For key "a" (byte 97) these differ (97 vs 518), so
an insert followed by a get with an ample buffer reports the key as not
found even though the entry is present in the table. -/
theorem C1_insert_then_get_misses :
    (db_insert hash_empty [97] [120]).1 = 0 ∧
    (db_insert hash_empty [97] [120]).2 (hash [97]) = [([97], [120])] ∧
    db_get (db_insert hash_empty [97] [120]).2 [97] 1024 = none := by
  refine ⟨rfl, ?_, ?_⟩ <;> decide

/-- C9: the db.c wrappers swallow the hash-layer failures. When the key is
at least `MAX_KEY_SIZE` bytes (or the value at least `MAX_VALUE_SIZE`),
`hash_put` fails with -1 and stores nothing, yet `db_insert` returns 0;
when the key is absent from its bucket, `hash_delete` fails with -1, yet
`db_delete` returns 0. Callers cannot detect either failure. -/
theorem C9_db_wrappers_swallow_errors (key value : Bytes) (table : HashTable)
    (hlong : MAX_KEY_SIZE ≤ key.length ∨ MAX_VALUE_SIZE ≤ value.length)
    (habsent : bucketDelete key (table (hash key)) = none) :
    hash_put table key value = (-1, table) ∧
    db_insert table key value = (0, table) ∧
    hash_delete table key = (-1, table) ∧
    db_delete table key = (0, table) := by
  have hput : hash_put table key value = (-1, table) := by
    simp [hash_put, hlong]
  have hdel : hash_delete table key = (-1, table) := by
    simp [hash_delete, habsent]
  exact ⟨hput, by simp [db_insert, hput], hdel, by simp [db_delete, hdel]⟩

/-- Witness for C9 at a concrete input: a 255-byte key on the empty table. -/
theorem C9_db_wrappers_swallow_errors_witness :
    hash_put hash_empty (List.replicate 255 97) [1] = (-1, hash_empty) ∧
    db_insert hash_empty (List.replicate 255 97) [1] = (0, hash_empty) ∧
    hash_delete hash_empty (List.replicate 255 97) = (-1, hash_empty) ∧
    db_delete hash_empty (List.replicate 255 97) = (0, hash_empty) :=
  C9_db_wrappers_swallow_errors (List.replicate 255 97) [1] hash_empty
    (by left; rw [List.length_replicate]; exact Nat.le_refl 255) rfl

/-- The first `n` characters of a string (`strlcpy` into a buffer of
`n + 1` bytes). -/
def strTake (s : String) (n : Nat) : String := String.mk (s.data.take n)

/-- A node descriptor (node.h `node_t`), restricted to the fields that the
registry operations under study read or write. -/
structure Node where
  id : Int
  name : String
  ip : String
  rale_port : Nat
  dstore_port : Nat
deriving DecidableEq

/-- A node slot as left by `memset(&cluster, 0, ...)`. -/
def emptyNode : Node :=
  { id := 0, name := "", ip := "", rale_port := 0, dstore_port := 0 }

/-- The cluster registry (cluster.h `cluster_t`): a fixed array of node
slots (modelled as a function from slot index), the populated count, and
the id of this node. -/
structure Cluster where
  nodes : Nat → Node
  node_count : Nat
  self_id : Int

/-- The registry right after `cluster_init` (no state file configured). -/
def clusterEmpty : Cluster :=
  { nodes := fun _ => emptyNode, node_count := 0, self_id := -1 }

/-- The duplicate-id scan of `cluster_add_node`: is some populated slot
already carrying this id? -/
def dupId (c : Cluster) (node_id : Int) : Bool :=
  (List.range c.node_count).any (fun i => (c.nodes i).id == node_id)

/-- cluster.c `cluster_add_node` (assuming `cluster_init` has run): the
validation chain followed by the append. `MAX_REASONABLE_NODE_ID` is 1000,
`MAX_REASONABLE_NAME_LEN` is 256, `MAX_REASONABLE_IP_LEN` is 46 and
`MAX_REASONABLE_PORT` is 65535; the stored name and ip are `strlcpy`ed
into buffers of 255 and 64 bytes. -/
def cluster_add_node (c : Cluster) (node_id : Int) (name ip : String)
    (rale_port dstore_port : Nat) : Int × Cluster :=
  if node_id ≤ 0 ∨ 1000 < node_id then (RALE_ERROR_GENERAL, c)
  else if name.length = 0 ∨ 256 < name.length then (RALE_ERROR_GENERAL, c)
  else if ip.length = 0 ∨ 46 < ip.length then (RALE_ERROR_GENERAL, c)
  else if rale_port = 0 ∨ 65535 < rale_port then (RALE_ERROR_GENERAL, c)
  else if dstore_port = 0 ∨ 65535 < dstore_port then (RALE_ERROR_GENERAL, c)
  else if dupId c node_id then (RALE_ERROR_GENERAL, c)
  else if MAX_NODES ≤ c.node_count then (RALE_ERROR_GENERAL, c)
  else
    let n : Node :=
      { id := node_id, name := strTake name 254, ip := strTake ip 63,
        rale_port := rale_port, dstore_port := dstore_port }
    (RALE_SUCCESS,
      { c with
          nodes := fun j => if j = c.node_count then n else c.nodes j,
          node_count := c.node_count + 1 })

/-- cluster.c `cluster_remove_node`: locate the slot by id and shift the
following slots down by one. -/
def cluster_remove_node (c : Cluster) (node_id : Int) : Int × Cluster :=
  match (List.range c.node_count).find? (fun i => (c.nodes i).id == node_id) with
  | none => (RALE_ERROR_GENERAL, c)
  | some idx =>
    (RALE_SUCCESS,
      { c with
          nodes := fun j =>
            if idx ≤ j ∧ j < c.node_count - 1 then c.nodes (j + 1) else c.nodes j,
          node_count := c.node_count - 1 })

/-- The error condition of the (amended) C6 claim: `cluster_add_node`
fails exactly when the id is outside (0, 1000], the name is empty or
longer than 256 characters, the ip is empty or longer than 46 characters,
a port is outside [1, 65535], the id is already present, or the registry
already holds `MAX_NODES` entries. -/
def addErr (c : Cluster) (node_id : Int) (name ip : String)
    (rale_port dstore_port : Nat) : Prop :=
  node_id ≤ 0 ∨ 1000 < node_id ∨
  name.length = 0 ∨ 256 < name.length ∨
  ip.length = 0 ∨ 46 < ip.length ∨
  rale_port = 0 ∨ 65535 < rale_port ∨
  dstore_port = 0 ∨ 65535 < dstore_port ∨
  dupId c node_id = true ∨ MAX_NODES ≤ c.node_count

instance (c : Cluster) (node_id : Int) (name ip : String)
    (rale_port dstore_port : Nat) :
    Decidable (addErr c node_id name ip rale_port dstore_port) := by
  unfold addErr; infer_instance

/-- C6 counterexample: a 255-character name passes the source's validation
(`strlen(name) > 256` is the rejection test in cluster.c), so the call
succeeds even though the claim requires an error for names longer than
254 characters. -/
theorem C6_name_255_accepted :
    254 < (String.mk (List.replicate 255 'a')).length ∧
    (cluster_add_node clusterEmpty 1 (String.mk (List.replicate 255 'a'))
        "127.0.0.1" 5001 6001).1 = RALE_SUCCESS := by
  constructor
  · show 254 < (List.replicate 255 'a').length
    rw [List.length_replicate]
    exact Nat.lt_succ_self 254
  · have h1 : ¬((1 : Int) ≤ 0 ∨ 1000 < (1 : Int)) := by decide
    have h2 : ¬((String.mk (List.replicate 255 'a')).length = 0 ∨
        256 < (String.mk (List.replicate 255 'a')).length) := by
      show ¬((List.replicate 255 'a').length = 0 ∨ 256 < (List.replicate 255 'a').length)
      rw [List.length_replicate]
      omega
    have h3 : ¬(("127.0.0.1" : String).length = 0 ∨ 46 < ("127.0.0.1" : String).length) := by
      decide
    have h4 : ¬((5001 : Nat) = 0 ∨ 65535 < (5001 : Nat)) := by decide
    have h5 : ¬((6001 : Nat) = 0 ∨ 65535 < (6001 : Nat)) := by decide
    have h6 : ¬(dupId clusterEmpty 1 = true) := by decide
    have h7 : ¬(MAX_NODES ≤ clusterEmpty.node_count) := by decide
    simp only [cluster_add_node, if_neg h1, if_neg h2, if_neg h3, if_neg h4, if_neg h5,
      if_neg h6, if_neg h7]

/-- C6 (amended: the name bound enforced by the code is 256, not 254):
`cluster_add_node` returns `RALE_ERROR_GENERAL` iff one of the validation
conditions holds, and otherwise succeeds and appends the node at slot
`node_count` (name truncated to 254 characters, ip to 63), leaving every
other slot and `self_id` unchanged. -/
theorem C6_add_node_validation (c : Cluster) (node_id : Int) (name ip : String)
    (rale_port dstore_port : Nat) :
    ((cluster_add_node c node_id name ip rale_port dstore_port).1 = RALE_ERROR_GENERAL ↔
      addErr c node_id name ip rale_port dstore_port) ∧
    (¬ addErr c node_id name ip rale_port dstore_port →
      (cluster_add_node c node_id name ip rale_port dstore_port).1 = RALE_SUCCESS ∧
      (cluster_add_node c node_id name ip rale_port dstore_port).2.node_count = c.node_count + 1 ∧
      (cluster_add_node c node_id name ip rale_port dstore_port).2.self_id = c.self_id ∧
      (cluster_add_node c node_id name ip rale_port dstore_port).2.nodes c.node_count =
        { id := node_id, name := strTake name 254, ip := strTake ip 63,
          rale_port := rale_port, dstore_port := dstore_port } ∧
      ∀ j, j ≠ c.node_count →
        (cluster_add_node c node_id name ip rale_port dstore_port).2.nodes j = c.nodes j) := by
  by_cases h1 : node_id ≤ 0 ∨ 1000 < node_id
  · constructor
    · simp only [cluster_add_node, if_pos h1]
      constructor
      · intro _; unfold addErr; tauto
      · intro _; trivial
    · intro hne; exact absurd (by unfold addErr; tauto) hne
  · by_cases h2 : name.length = 0 ∨ 256 < name.length
    · constructor
      · simp only [cluster_add_node, if_neg h1, if_pos h2]
        constructor
        · intro _; unfold addErr; tauto
        · intro _; trivial
      · intro hne; exact absurd (by unfold addErr; tauto) hne
    · by_cases h3 : ip.length = 0 ∨ 46 < ip.length
      · constructor
        · simp only [cluster_add_node, if_neg h1, if_neg h2, if_pos h3]
          constructor
          · intro _; unfold addErr; tauto
          · intro _; trivial
        · intro hne; exact absurd (by unfold addErr; tauto) hne
      · by_cases h4 : rale_port = 0 ∨ 65535 < rale_port
        · constructor
          · simp only [cluster_add_node, if_neg h1, if_neg h2, if_neg h3, if_pos h4]
            constructor
            · intro _; unfold addErr; tauto
            · intro _; trivial
          · intro hne; exact absurd (by unfold addErr; tauto) hne
        · by_cases h5 : dstore_port = 0 ∨ 65535 < dstore_port
          · constructor
            · simp only [cluster_add_node, if_neg h1, if_neg h2, if_neg h3, if_neg h4, if_pos h5]
              constructor
              · intro _; unfold addErr; tauto
              · intro _; trivial
            · intro hne; exact absurd (by unfold addErr; tauto) hne
          · by_cases h6 : dupId c node_id = true
            · constructor
              · simp only [cluster_add_node, if_neg h1, if_neg h2, if_neg h3, if_neg h4,
                  if_neg h5, if_pos h6]
                constructor
                · intro _; unfold addErr; tauto
                · intro _; trivial
              · intro hne; exact absurd (by unfold addErr; tauto) hne
            · by_cases h7 : MAX_NODES ≤ c.node_count
              · constructor
                · simp only [cluster_add_node, if_neg h1, if_neg h2, if_neg h3, if_neg h4,
                    if_neg h5, if_neg h6, if_pos h7]
                  constructor
                  · intro _; unfold addErr; tauto
                  · intro _; trivial
                · intro hne; exact absurd (by unfold addErr; tauto) hne
              · have hsucc :
                    cluster_add_node c node_id name ip rale_port dstore_port =
                    (RALE_SUCCESS,
                      { c with
                          nodes := fun j => if j = c.node_count then
                              { id := node_id, name := strTake name 254, ip := strTake ip 63,
                                rale_port := rale_port, dstore_port := dstore_port }
                            else c.nodes j,
                          node_count := c.node_count + 1 }) := by
                  simp only [cluster_add_node, if_neg h1, if_neg h2, if_neg h3, if_neg h4,
                    if_neg h5, if_neg h6, if_neg h7]
                have herr : ¬ addErr c node_id name ip rale_port dstore_port := by
                  unfold addErr; tauto
                constructor
                · rw [hsucc]
                  simp only [RALE_SUCCESS, RALE_ERROR_GENERAL]
                  constructor
                  · intro h0; exact absurd h0 (by decide)
                  · intro ha; exact absurd ha herr
                · intro _
                  rw [hsucc]
                  refine ⟨rfl, rfl, rfl, by simp, ?_⟩
                  intro j hj
                  simp [hj]

/-- Witness for C6: adding a valid node to the empty registry succeeds and
lands in slot 0. -/
theorem C6_add_node_validation_witness :
    ¬ addErr clusterEmpty 1 "n1" "10.0.0.1" 101 102 ∧
    (cluster_add_node clusterEmpty 1 "n1" "10.0.0.1" 101 102).1 = RALE_SUCCESS ∧
    (cluster_add_node clusterEmpty 1 "n1" "10.0.0.1" 101 102).2.node_count = 1 :=
  ⟨by decide,
   ((C6_add_node_validation clusterEmpty 1 "n1" "10.0.0.1" 101 102).2 (by decide)).1,
   ((C6_add_node_validation clusterEmpty 1 "n1" "10.0.0.1" 101 102).2 (by decide)).2.1⟩

/-- Does `pre` occur at the start of `s`? (`strncmp(s, pre, strlen pre) == 0`). -/
def startsWithChars : List Char → List Char → Bool
  | [], _ => true
  | _ :: _, [] => false
  | p :: ps, c :: cs => p = c && startsWithChars ps cs

/-- Does `pat` occur anywhere inside `s`? (C `strstr`). -/
def containsChars (pat : List Char) : List Char → Bool
  | [] => startsWithChars pat []
  | c :: rest => startsWithChars pat (c :: rest) || containsChars pat rest

/-- Split at the first occurrence of `sep` (C `strchr`): the part before
and the part after, or `none` when `sep` is absent. -/
def splitFirst (sep : Char) : List Char → Option (List Char × List Char)
  | [] => none
  | c :: rest =>
    if c = sep then some ([], rest)
    else
      match splitFirst sep rest with
      | some kv => some (c :: kv.1, kv.2)
      | none => none

/-- Decimal digits to a number (no sign). -/
def digitsToNat (cs : List Char) : Nat :=
  cs.foldl (fun a c => a * 10 + (c.toNat - 48)) 0

/-- C `isspace` on the characters `atoi` skips. -/
def isSpaceChar (c : Char) : Bool :=
  c = ' ' || c = '\t' || c = '\n' || c = '\x0d' || c = '\x0b' || c = '\x0c'

/-- C `atoi` on a character list: skip leading whitespace, optional sign,
then the longest digit run; 0 when there are no digits. -/
def atoiChars (cs : List Char) : Int :=
  let cs2 := cs.dropWhile isSpaceChar
  match cs2 with
  | '-' :: rest => -(Int.ofNat (digitsToNat (rest.takeWhile Char.isDigit)))
  | '+' :: rest => Int.ofNat (digitsToNat (rest.takeWhile Char.isDigit))
  | _ => Int.ofNat (digitsToNat (cs2.takeWhile Char.isDigit))

/-- Conversion of a C `int` to `uint16_t` (reduction modulo 2^16). -/
def uint16_cast (i : Int) : Nat := (i % 65536).toNat

/-- Conversion of a C `int` to `uint32_t` (reduction modulo 2^32). -/
def uint32_cast (i : Int) : Nat := (i % 4294967296).toNat

/-- The parse state of `cluster_load_state`: the registry fields being
rebuilt plus the function-local accumulators for the node currently being
assembled. -/
structure LoadSt where
  self_id : Int
  node_count : Nat
  nodes : Nat → Node
  node_index : Nat
  cur_id : Int
  cur_name : String
  cur_ip : String
  cur_rale_port : Nat

/-- The state right after the `memset` reset at the top of
`cluster_load_state` (registry emptied, locals zeroed). -/
def loadInit : LoadSt :=
  { self_id := -1, node_count := 0, nodes := fun _ => emptyNode,
    node_index := 0, cur_id := 0, cur_name := "", cur_ip := "", cur_rale_port := 0 }

/-- One iteration of the `fgets` loop of `cluster_load_state`: split the
line at the first `=`, skip on a missing `=`, an over-long key (≥ 64) or
value (≥ 256), dispatch on the key, and complete a node slot when the
`].dstore_port` line arrives. -/
def stepLine (st : LoadSt) (line : String) : LoadSt :=
  match splitFirst '=' line.data with
  | none => st
  | some kv =>
    let key := kv.1
    let value := kv.2
    if 64 ≤ key.length then st
    else if 256 ≤ value.length then st
    else if key = "self_id".data then { st with self_id := atoiChars value }
    else if key = "node_count".data then
      { st with node_count := uint32_cast (atoiChars value) }
    else if startsWithChars "node[".data key && containsChars "].id".data key then
      { st with cur_id := atoiChars value }
    else if startsWithChars "node[".data key && containsChars "].name".data key then
      { st with cur_name := String.mk value }
    else if startsWithChars "node[".data key && containsChars "].ip".data key then
      { st with cur_ip := String.mk value }
    else if startsWithChars "node[".data key && containsChars "].rale_port".data key then
      { st with cur_rale_port := uint16_cast (atoiChars value) }
    else if startsWithChars "node[".data key && containsChars "].dstore_port".data key then
      if st.node_index < MAX_NODES then
        { st with
            nodes := fun j =>
              if j = st.node_index then
                { id := st.cur_id, name := strTake st.cur_name 254,
                  ip := strTake st.cur_ip 63, rale_port := st.cur_rale_port,
                  dstore_port := uint16_cast (atoiChars value) }
              else st.nodes j,
            node_index := st.node_index + 1 }
      else st
    else st

/-- cluster.c `cluster_load_state` on an existing file, modelled as the
list of its lines (newlines stripped as the code does): reset the registry
to empty, then fold the line parser over the file. -/
def cluster_load_state (lines : List String) : Cluster :=
  let st := lines.foldl stepLine loadInit
  { nodes := st.nodes, node_count := st.node_count, self_id := st.self_id }

/-- Lines that `cluster_load_state` skips without any state change: no
`=`, an over-long key or value, or a key that matches none of the known
patterns. -/
def lineIgnored (line : String) : Bool :=
  match splitFirst '=' line.data with
  | none => true
  | some kv =>
    let key := kv.1
    let value := kv.2
    if 64 ≤ key.length then true
    else if 256 ≤ value.length then true
    else if key = "self_id".data then false
    else if key = "node_count".data then false
    else if startsWithChars "node[".data key && containsChars "].id".data key then false
    else if startsWithChars "node[".data key && containsChars "].name".data key then false
    else if startsWithChars "node[".data key && containsChars "].ip".data key then false
    else if startsWithChars "node[".data key && containsChars "].rale_port".data key then false
    else if startsWithChars "node[".data key && containsChars "].dstore_port".data key then false
    else true

/-- Lines that assign `node_count` (key exactly `node_count`, within the
key and value size limits). -/
def setsNodeCount (line : String) : Bool :=
  match splitFirst '=' line.data with
  | none => false
  | some kv =>
    if 64 ≤ kv.1.length then false
    else if 256 ≤ kv.2.length then false
    else decide (kv.1 = "node_count".data)

/-- Lines that assign `self_id`. -/
def setsSelfId (line : String) : Bool :=
  match splitFirst '=' line.data with
  | none => false
  | some kv =>
    if 64 ≤ kv.1.length then false
    else if 256 ≤ kv.2.length then false
    else decide (kv.1 = "self_id".data)

theorem stepLine_ignored (st : LoadSt) (line : String)
    (h : lineIgnored line = true) : stepLine st line = st := by
  unfold lineIgnored at h
  unfold stepLine
  rcases hsplit : splitFirst '=' line.data with _ | kv
  · rfl
  · rw [hsplit] at h
    simp only at h ⊢
    by_cases hk : 64 ≤ kv.1.length
    · rw [if_pos hk]
    · rw [if_neg hk] at h ⊢
      by_cases hv : 256 ≤ kv.2.length
      · rw [if_pos hv]
      · rw [if_neg hv] at h ⊢
        by_cases h3 : kv.1 = "self_id".data
        · rw [if_pos h3] at h; exact absurd h (by decide)
        · rw [if_neg h3] at h ⊢
          by_cases h4 : kv.1 = "node_count".data
          · rw [if_pos h4] at h; exact absurd h (by decide)
          · rw [if_neg h4] at h ⊢
            by_cases h5 : (startsWithChars "node[".data kv.1 &&
                containsChars "].id".data kv.1) = true
            · rw [if_pos h5] at h; exact absurd h (by decide)
            · rw [if_neg h5] at h ⊢
              by_cases h6 : (startsWithChars "node[".data kv.1 &&
                  containsChars "].name".data kv.1) = true
              · rw [if_pos h6] at h; exact absurd h (by decide)
              · rw [if_neg h6] at h ⊢
                by_cases h7 : (startsWithChars "node[".data kv.1 &&
                    containsChars "].ip".data kv.1) = true
                · rw [if_pos h7] at h; exact absurd h (by decide)
                · rw [if_neg h7] at h ⊢
                  by_cases h8 : (startsWithChars "node[".data kv.1 &&
                      containsChars "].rale_port".data kv.1) = true
                  · rw [if_pos h8] at h; exact absurd h (by decide)
                  · rw [if_neg h8] at h ⊢
                    by_cases h9 : (startsWithChars "node[".data kv.1 &&
                        containsChars "].dstore_port".data kv.1) = true
                    · rw [if_pos h9] at h; exact absurd h (by decide)
                    · rw [if_neg h9]

theorem stepLine_node_count (st : LoadSt) (line : String)
    (h : setsNodeCount line = false) : (stepLine st line).node_count = st.node_count := by
  unfold setsNodeCount at h
  unfold stepLine
  rcases hsplit : splitFirst '=' line.data with _ | kv
  · rfl
  · rw [hsplit] at h
    simp only at h ⊢
    split_ifs at h with hk hv
    · rw [if_pos hk]
    · rw [if_neg hk, if_pos hv]
    · have hkey : ¬(kv.1 = "node_count".data) := by simpa using h
      rw [if_neg hk, if_neg hv]
      by_cases h3 : kv.1 = "self_id".data
      · rw [if_pos h3]
      · rw [if_neg h3, if_neg hkey]
        split_ifs <;> rfl

theorem stepLine_self_id (st : LoadSt) (line : String)
    (h : setsSelfId line = false) : (stepLine st line).self_id = st.self_id := by
  unfold setsSelfId at h
  unfold stepLine
  rcases hsplit : splitFirst '=' line.data with _ | kv
  · rfl
  · rw [hsplit] at h
    simp only at h ⊢
    split_ifs at h with hk hv
    · rw [if_pos hk]
    · rw [if_neg hk, if_pos hv]
    · have hkey : ¬(kv.1 = "self_id".data) := by simpa using h
      rw [if_neg hk, if_neg hv, if_neg hkey]
      by_cases h4 : kv.1 = "node_count".data
      · rw [if_pos h4]
      · rw [if_neg h4]
        split_ifs <;> rfl

theorem foldl_node_count (lines : List String) :
    ∀ st : LoadSt, (∀ l ∈ lines, setsNodeCount l = false) →
      (lines.foldl stepLine st).node_count = st.node_count := by
  induction lines with
  | nil => intro st _; rfl
  | cons hd tl ih =>
    intro st h
    rw [List.foldl_cons, ih (stepLine st hd) (fun l hl => h l (List.mem_cons_of_mem hd hl)),
      stepLine_node_count st hd (h hd (List.mem_cons_self hd tl))]

theorem foldl_self_id (lines : List String) :
    ∀ st : LoadSt, (∀ l ∈ lines, setsSelfId l = false) →
      (lines.foldl stepLine st).self_id = st.self_id := by
  induction lines with
  | nil => intro st _; rfl
  | cons hd tl ih =>
    intro st h
    rw [List.foldl_cons, ih (stepLine st hd) (fun l hl => h l (List.mem_cons_of_mem hd hl)),
      stepLine_self_id st hd (h hd (List.mem_cons_self hd tl))]

/-- C7 counterexample: the file truncated to the single line `self_id=3`
carries no parseable node count, yet the load finishes with `self_id = 3`,
not the `-1` of the empty registry the claim requires. -/
theorem C7_truncated_file_keeps_self_id :
    (cluster_load_state ["self_id=3"]).node_count = 0 ∧
    (cluster_load_state ["self_id=3"]).self_id = 3 ∧
    (cluster_load_state ["self_id=3"]).self_id ≠ -1 := by
  refine ⟨by decide, by decide, by decide⟩

/-- C7 (amended): the loader never fails — a line with an unknown key (or
no `=`, or an over-long key or value) leaves the parse state untouched;
and on a truncated or corrupt file containing no `node_count` assignment
the load completes with `node_count = 0`, with `self_id` also reset to
`-1` when no `self_id` line was parsed (a parsed `self_id` keeps its
value, as the counterexample shows). -/
theorem C7_load_tolerates_unknown_and_truncated :
    (∀ pre post : List String, ∀ line : String, lineIgnored line = true →
      cluster_load_state (pre ++ line :: post) = cluster_load_state (pre ++ post)) ∧
    (∀ lines : List String, (∀ l ∈ lines, setsNodeCount l = false) →
      (cluster_load_state lines).node_count = 0 ∧
      ((∀ l ∈ lines, setsSelfId l = false) → (cluster_load_state lines).self_id = -1)) := by
  constructor
  · intro pre post line h
    unfold cluster_load_state
    rw [List.foldl_append, List.foldl_append, List.foldl_cons, stepLine_ignored _ line h]
  · intro lines h
    refine ⟨?_, ?_⟩
    · show (lines.foldl stepLine loadInit).node_count = 0
      rw [foldl_node_count lines loadInit h]
      rfl
    · intro h2
      show (lines.foldl stepLine loadInit).self_id = -1
      rw [foldl_self_id lines loadInit h2]
      rfl

/-- Witness for C7 at concrete inputs: an unknown-key line is dropped, and
a file of unknown keys loads as the empty registry. -/
theorem C7_load_tolerates_witness :
    cluster_load_state ["junk=1", "node_count=1"] = cluster_load_state ["node_count=1"] ∧
    (cluster_load_state ["junk=1"]).node_count = 0 ∧
    (cluster_load_state ["junk=1"]).self_id = -1 :=
  ⟨C7_load_tolerates_unknown_and_truncated.1 [] ["node_count=1"] "junk=1" (by decide),
   (C7_load_tolerates_unknown_and_truncated.2 ["junk=1"] (by decide)).1,
   (C7_load_tolerates_unknown_and_truncated.2 ["junk=1"] (by decide)).2 (by decide)⟩

/-- The roles of the RALE state machine (rale.h `rale_role_t`). -/
inductive Role
  | follower
  | candidate
  | leader
  | transitioning
deriving DecidableEq

/-- The in-memory RALE state (`rale_state_t`), together with the static
election bookkeeping of rale_proto.c (`election_active`,
`votes_received`). Wall-clock fields (`last_heartbeat`) are omitted;
`election_deadline` is carried as an abstract instant. -/
structure RaleState where
  current_term : Int
  voted_for : Int
  leader_id : Int
  last_log_index : Int
  last_log_term : Int
  role : Role
  election_deadline : Int
  election_active : Bool
  votes_received : Int
deriving DecidableEq

/-- The in-memory state left by `rale_proto_init` before `rale_state_load`
runs (the `memset` plus explicit defaults), with the freshly computed
election deadline passed in. -/
def rale_init_state (deadline : Int) : RaleState :=
  { current_term := 0, voted_for := -1, leader_id := -1,
    last_log_index := 0, last_log_term := 0, role := Role.follower,
    election_deadline := deadline, election_active := false, votes_received := 0 }

/-- rale_proto.c `rale_state_save`: the five integers written to the
single `"%d %d %d %d %d\n"` line of `rale.state` (file modelled at token
level). -/
def rale_state_save (s : RaleState) : List Int :=
  [s.current_term, s.voted_for, s.leader_id, s.last_log_index, s.last_log_term]

/-- rale_proto.c `rale_state_load`: fail when the file is absent or does
not yield five integers; otherwise adopt each parsed field only when it is
non-negative, keeping the current in-memory value otherwise. -/
def rale_state_load (file : Option (List Int)) (s : RaleState) : Int × RaleState :=
  match file with
  | none => (-1, s)
  | some toks =>
    match toks with
    | [ct, vf, lid, lli, llt] =>
      (0, { s with
              current_term := if 0 ≤ ct then ct else s.current_term,
              voted_for := if 0 ≤ vf then vf else s.voted_for,
              leader_id := if 0 ≤ lid then lid else s.leader_id,
              last_log_index := if 0 ≤ lli then lli else s.last_log_index,
              last_log_term := if 0 ≤ llt then llt else s.last_log_term })
    | _ => (-1, s)

/-- The state recovered after a restart: defaults from `rale_proto_init`
(with fresh deadline `d`) refined by `rale_state_load` from the saved
file. -/
def rale_reloaded (s : RaleState) (d : Int) : RaleState :=
  (rale_state_load (some (rale_state_save s)) (rale_init_state d)).2

/-- C8: persist, restart, load round-trips the five persisted fields, for
every state in the protocol's domain (terms and log fields non-negative,
`voted_for` and `leader_id` a node id or the `-1` sentinel). The sentinel
cases round-trip because the load-side `>= 0` guards fall back to the
`rale_proto_init` defaults, which are also `-1`. -/
theorem C8_state_roundtrip (s : RaleState) (d : Int)
    (h1 : 0 ≤ s.current_term) (h2 : -1 ≤ s.voted_for) (h3 : -1 ≤ s.leader_id)
    (h4 : 0 ≤ s.last_log_index) (h5 : 0 ≤ s.last_log_term) :
    (rale_reloaded s d).current_term = s.current_term ∧
    (rale_reloaded s d).voted_for = s.voted_for ∧
    (rale_reloaded s d).leader_id = s.leader_id ∧
    (rale_reloaded s d).last_log_index = s.last_log_index ∧
    (rale_reloaded s d).last_log_term = s.last_log_term := by
  unfold rale_reloaded rale_state_load rale_state_save rale_init_state
  refine ⟨by simp [h1], ?_, ?_, by simp [h4], by simp [h5]⟩
  · by_cases hv : 0 ≤ s.voted_for
    · simp [hv]
    · have : s.voted_for = -1 := by omega
      simp [hv, this]
  · by_cases hl : 0 ≤ s.leader_id
    · simp [hl]
    · have : s.leader_id = -1 := by omega
      simp [hl, this]

/-- Witness for C8: a state with `voted_for = -1` and `leader_id = -1`
round-trips. -/
theorem C8_state_roundtrip_witness :
    (rale_reloaded
      { current_term := 7, voted_for := -1, leader_id := -1, last_log_index := 4,
        last_log_term := 6, role := Role.leader, election_deadline := 99,
        election_active := false, votes_received := 0 } 0).current_term = 7 ∧
    (rale_reloaded
      { current_term := 7, voted_for := -1, leader_id := -1, last_log_index := 4,
        last_log_term := 6, role := Role.leader, election_deadline := 99,
        election_active := false, votes_received := 0 } 0).voted_for = -1 :=
  ⟨(C8_state_roundtrip _ 0 (by decide) (by decide) (by decide) (by decide) (by decide)).1,
   (C8_state_roundtrip _ 0 (by decide) (by decide) (by decide) (by decide) (by decide)).2.1⟩

/-- A RALE node as seen by the protocol handler: the in-memory state plus
the current contents of its `rale.state` file. -/
structure RNode where
  st : RaleState
  file : Option (List Int)
deriving DecidableEq

/-- Replies emitted by the vote-request handler (rendered over UDP as
`VOTE_DENIED <id> <term>` / `VOTE_GRANTED <id> <term>`). -/
inductive RMsg
  | vote_denied (voter term : Int)
  | vote_granted (voter term : Int)
deriving DecidableEq

/-- rale_proto.c `rale_note_leader`: adopt a newly observed leader id and
persist. -/
def rale_note_leader (leader_id : Int) (n : RNode) : RNode :=
  if 0 ≤ leader_id ∧ leader_id ≠ n.st.leader_id then
    let st2 := { n.st with leader_id := leader_id }
    { st := st2, file := some (rale_state_save st2) }
  else n

/-- rale_proto.c `rale_become_follower`: drop to follower, optionally note
the leader, cancel any election, take a fresh election deadline, persist. -/
def rale_become_follower (known_leader newDeadline : Int) (n : RNode) : RNode :=
  let n1 := { n with st := { n.st with role := Role.follower } }
  let n2 := if 0 ≤ known_leader then rale_note_leader known_leader n1 else n1
  let st3 := { n2.st with
                 election_active := false, votes_received := 0,
                 election_deadline := newDeadline }
  { st := st3, file := some (rale_state_save st3) }

/-- The higher-term branch of the `VOTE_REQUEST` handler
(rale_proto.c `rale_handle_message`): adopt the term, clear `voted_for`,
become follower with unknown leader (which persists). -/
def vote_request_adopt (newDeadline t : Int) (n : RNode) : RNode :=
  rale_become_follower (-1) newDeadline
    { n with st := { n.st with current_term := t, voted_for := -1 } }

/-- The grant rule of the `VOTE_REQUEST` handler: when not leader and not
already committed to another candidate, record the vote, reset the
election deadline, persist, and reply `VOTE_GRANTED`. -/
def vote_request_grant (newDeadline2 node_id c : Int) (n : RNode) : RNode × List RMsg :=
  if n.st.role ≠ Role.leader ∧ (n.st.voted_for = -1 ∨ n.st.voted_for = c) then
    let st2 := { n.st with voted_for := c, election_deadline := newDeadline2 }
    ({ st := st2, file := some (rale_state_save st2) },
     [RMsg.vote_granted node_id st2.current_term])
  else (n, [])

/-- The `VOTE_REQUEST <c> <t>` branch of rale_proto.c
`rale_handle_message`, with the candidate id `c` and term `t` already
parsed (`t = -1` encodes an absent term field) and the two
`compute_election_deadline` draws passed in. -/
def rale_handle_vote_request (newDeadline newDeadline2 node_id c t : Int)
    (n : RNode) : RNode × List RMsg :=
  if t ≠ -1 ∧ t < n.st.current_term then
    (n, [RMsg.vote_denied node_id n.st.current_term])
  else
    let n1 := if n.st.current_term < t then vote_request_adopt newDeadline t n else n
    vote_request_grant newDeadline2 node_id c n1

/-- C4: a `VOTE_REQUEST` with term strictly below `current_term` is
answered `VOTE_DENIED` with the node and file left untouched; one with a
strictly higher term first adopts the term, clears `voted_for`, becomes
follower and persists that state (the file holds exactly the adopted
state), and only then evaluates the grant rule on the adopted state. -/
theorem C4_vote_request_term_gate (dl dl2 node_id c t : Int) (n : RNode)
    (ht : 0 ≤ t) :
    (t < n.st.current_term →
      rale_handle_vote_request dl dl2 node_id c t n =
        (n, [RMsg.vote_denied node_id n.st.current_term])) ∧
    (n.st.current_term < t →
      rale_handle_vote_request dl dl2 node_id c t n =
        vote_request_grant dl2 node_id c (vote_request_adopt dl t n) ∧
      (vote_request_adopt dl t n).st.current_term = t ∧
      (vote_request_adopt dl t n).st.voted_for = -1 ∧
      (vote_request_adopt dl t n).st.role = Role.follower ∧
      (vote_request_adopt dl t n).file =
        some (rale_state_save (vote_request_adopt dl t n).st)) := by
  constructor
  · intro hlow
    unfold rale_handle_vote_request
    rw [if_pos ⟨by omega, hlow⟩]
  · intro hhigh
    refine ⟨?_, rfl, rfl, rfl, rfl⟩
    unfold rale_handle_vote_request
    rw [if_neg (by omega : ¬(t ≠ -1 ∧ t < n.st.current_term)), if_pos hhigh]

/-- Witness for C4: a node at term 5 denies a request at term 3 and adopts
a request at term 9. -/
theorem C4_vote_request_term_gate_witness :
    rale_handle_vote_request 50 60 1 2 3
        { st := { current_term := 5, voted_for := -1, leader_id := 1,
                  last_log_index := 0, last_log_term := 0, role := Role.follower,
                  election_deadline := 40, election_active := false,
                  votes_received := 0 },
          file := some [5, -1, 1, 0, 0] } =
      ({ st := { current_term := 5, voted_for := -1, leader_id := 1,
                 last_log_index := 0, last_log_term := 0, role := Role.follower,
                 election_deadline := 40, election_active := false,
                 votes_received := 0 },
         file := some [5, -1, 1, 0, 0] }, [RMsg.vote_denied 1 5]) ∧
    (vote_request_adopt 50 9
        { st := { current_term := 5, voted_for := -1, leader_id := 1,
                  last_log_index := 0, last_log_term := 0, role := Role.follower,
                  election_deadline := 40, election_active := false,
                  votes_received := 0 },
          file := some [5, -1, 1, 0, 0] }).st.current_term = 9 :=
  ⟨(C4_vote_request_term_gate 50 60 1 2 3 _ (by decide)).1 (by decide),
   ((C4_vote_request_term_gate 50 60 1 2 9 _ (by decide)).2 (by decide)).2.1⟩

/-- The bytes of a string (ASCII), for handing parsed text to the db layer. -/
def strBytes (s : String) : Bytes := s.data.map Char.toNat

/-- The DStore-side view of one node's state: membership registry,
in-memory KV table, `rale.db` journal lines, `rale.state` tokens,
per-peer-index outbound client connectivity (`tcp_clients[i]` present and
connected), `connection_status[]`, the server-slot-to-peer map
(`client_socket_to_node[]`), and the outboxes of client-side and
server-side sends. -/
structure DState where
  cluster : Cluster
  db : HashTable
  journal : List String
  raleFile : Option (List Int)
  clientConn : Nat → Bool
  connStatus : Nat → Bool
  serverClients : Nat → Int
  sentClient : List (Nat × String)
  sentServer : List (Nat × String)

/-- The five fields of a `rale.state` line as read back by the dstore.c
parsers (`strtok` + `atoi`, missing tokens left at `-1`). -/
structure RaleFileFields where
  ct : Int
  vf : Int
  lid : Int
  lli : Int
  llt : Int
deriving DecidableEq

/-- Read the (up to five) integer tokens of `rale.state`, defaulting each
missing token to `-1` (the read prologue shared by
`write_rale_state_leader`, `dstore_is_current_leader` and
`dstore_get_current_leader`). -/
def readFields (file : Option (List Int)) : RaleFileFields :=
  match file with
  | none => ⟨-1, -1, -1, -1, -1⟩
  | some toks =>
    ⟨toks.getD 0 (-1), toks.getD 1 (-1), toks.getD 2 (-1),
     toks.getD 3 (-1), toks.getD 4 (-1)⟩

/-- dstore.c `write_rale_state_leader`: re-read the existing file to
preserve the other fields, overwrite `current_term` with `term` whenever
`term` is non-negative (no monotonicity check) and `leader_id`
unconditionally, then rewrite the file. -/
def write_rale_state_leader (term leader_id : Int) (file : Option (List Int)) :
    Option (List Int) :=
  let f := readFields file
  let ct := if 0 ≤ term then term else f.ct
  some [if 0 ≤ ct then ct else 0,
        if 0 ≤ f.vf then f.vf else -1,
        leader_id,
        if 0 ≤ f.lli then f.lli else 0,
        if 0 ≤ f.llt then f.llt else 0]

/-- The shared read-and-validate step of `dstore_is_current_leader` and
`dstore_get_current_leader`: reject a missing file and any parse in which
one of the five fields is negative. -/
def dstore_parse_rale_state (file : Option (List Int)) : Option RaleFileFields :=
  match file with
  | none => none
  | some toks =>
    if toks.getD 0 (-1) < 0 ∨ toks.getD 1 (-1) < 0 ∨ toks.getD 2 (-1) < 0 ∨
        toks.getD 3 (-1) < 0 ∨ toks.getD 4 (-1) < 0 then none
    else
      some ⟨toks.getD 0 (-1), toks.getD 1 (-1), toks.getD 2 (-1),
            toks.getD 3 (-1), toks.getD 4 (-1)⟩

/-- dstore.c `dstore_is_current_leader`: re-read `rale.state` and compare
its `leader_id` with `cluster.self_id`; any read/parse failure means "not
leader". -/
def dstore_is_current_leader (st : DState) : Bool :=
  match dstore_parse_rale_state st.raleFile with
  | none => false
  | some f => f.lid == st.cluster.self_id

/-- dstore.c `dstore_get_current_leader`: the `leader_id` field of
`rale.state`, or `-1` on any read/parse failure. -/
def dstore_get_current_leader (st : DState) : Int :=
  match dstore_parse_rale_state st.raleFile with
  | none => -1
  | some f => f.lid

/-- dstore.c `find_node_index_by_id`: first registry index carrying the
id, else `MAX_NODES`. -/
def find_node_index_by_id (c : Cluster) (node_id : Int) : Nat :=
  match (List.range c.node_count).find? (fun i => (c.nodes i).id == node_id) with
  | some i => i
  | none => MAX_NODES

/-- dstore.c `dstore_send_message`: bounds-check the target index and send
on its outbound client link when connected. -/
def dstore_send_message (target : Nat) (msg : String) (st : DState) : Int × DState :=
  if st.cluster.node_count = 0 then (-1, st)
  else if st.cluster.node_count ≤ target then (-1, st)
  else if st.clientConn target then
    (0, { st with sentClient := st.sentClient ++ [(target, msg)] })
  else (-1, st)

/-- dstore.c `dstore_replicate_to_followers`: format `PUT key=value`,
reject it if it does not fit the replication buffer, then walk the
registry by index, skipping an entry exactly when its **index** equals
`cluster.self_id` (the source compares `(int32_t)i == cluster.self_id`)
or its id is `-1`, and sending to each remaining index whose outbound
client link is connected. -/
def dstore_replicate_to_followers (key value : String) (st : DState) : DState :=
  if st.cluster.node_count = 0 then st
  else
    let message := "PUT " ++ key ++ "=" ++ value
    if REPLICATION_MESSAGE_BUFFER_SIZE ≤ message.length then st
    else
      let targets := (List.range st.cluster.node_count).filter (fun (i : Nat) =>
        !(Int.ofNat i == st.cluster.self_id) && !((st.cluster.nodes i).id == -1) &&
          st.clientConn i)
      { st with sentClient := st.sentClient ++ targets.map (fun i => (i, message)) }

/-- dstore.c `dstore_broadcast_leader_snapshot`: send `LEADER <term>
<leader_id>` (term clamped to 0 from below) to every attributed server
slot and every connected outbound client. -/
def dstore_broadcast_leader_snapshot (term leader_id : Int) (st : DState) : DState :=
  let msg := "LEADER " ++ toString (if 0 ≤ term then term else 0) ++ " " ++
    toString leader_id
  let sTargets := (List.range TCP_SERVER_MAX_CLIENTS).filter
    (fun i => !(st.serverClients i == -1))
  let cTargets := (List.range st.cluster.node_count).filter (fun i => st.clientConn i)
  { st with
      sentServer := st.sentServer ++ sTargets.map (fun i => (i, msg)),
      sentClient := st.sentClient ++ cTargets.map (fun i => (i, msg)) }

/-- `strtok(.., " ")` tokenisation: maximal runs of non-space characters. -/
def tokenizeAux : List Char → List Char → List (List Char)
  | [], acc => if acc.isEmpty then [] else [acc.reverse]
  | c :: rest, acc =>
    if c = ' ' then
      if acc.isEmpty then tokenizeAux rest []
      else acc.reverse :: tokenizeAux rest []
    else tokenizeAux rest (c :: acc)

/-- dstore.c `dstore_handle_propagated_add`: tokenise the tail of
`PROPAGATE_ADD <id> <name> <ip> <rale_port> <dstore_port>` (the name and
ip are `strncpy`ed into 64- and 16-byte buffers), validate, and apply
`cluster_add_node`. -/
def dstore_handle_propagated_add (cmd : String) (st : DState) : DState :=
  let toks := tokenizeAux (cmd.data.drop 13) []
  let node_id : Int := match toks.get? 0 with | some t => atoiChars t | none => -1
  let name : String := match toks.get? 1 with | some t => String.mk (t.take 63) | none => ""
  let ip : String := match toks.get? 2 with | some t => String.mk (t.take 15) | none => ""
  let rale_port : Nat :=
    match toks.get? 3 with | some t => uint16_cast (atoiChars t) | none => 0
  let dstore_port : Nat :=
    match toks.get? 4 with | some t => uint16_cast (atoiChars t) | none => 0
  if 0 ≤ node_id ∧ 0 < name.length ∧ 0 < ip.length ∧ 0 < rale_port ∧ 0 < dstore_port then
    { st with cluster := (cluster_add_node st.cluster node_id name ip rale_port dstore_port).2 }
  else st

/-- dstore.c `dstore_handle_propagated_remove`: the parse starts at offset
16 of the command — the space before the id — so the `isdigit` test fails
and the handler always reports a parse error, leaving the state unchanged. -/
def dstore_handle_propagated_remove (cmd : String) (st : DState) : DState :=
  let node_str := cmd.data.drop 16
  let node_id : Int :=
    match node_str with
    | c :: _ => if c.isDigit then atoiChars node_str else -1
    | [] => -1
  if 0 ≤ node_id then
    { st with cluster := (cluster_remove_node st.cluster node_id).2 }
  else st

/-- The PUT application of `dstore_put_from_command` (dstore.c from the
leader check onward): a non-leader forwards `FORWARD_PUT key=value` to the
known, connected leader; the leader inserts into the KV table, appends
`key=value` to `rale.db` (`dstore_save_to_rale_db`), and replicates. -/
def dstore_apply_put (key value : String) (st : DState) : DState :=
  if dstore_is_current_leader st = false then
    let leader := dstore_get_current_leader st
    if leader ≠ -1 ∧ leader ≠ st.cluster.self_id then
      let lidx := find_node_index_by_id st.cluster leader
      if lidx ≠ MAX_NODES ∧ st.connStatus lidx then
        (dstore_send_message lidx ("FORWARD_PUT " ++ key ++ "=" ++ value) st).2
      else st
    else st
  else
    let st1 := { st with db := (db_insert st.db (strBytes key) (strBytes value)).2 }
    let st2 := { st1 with journal := st1.journal ++ [key ++ "=" ++ value] }
    dstore_replicate_to_followers key value st2

/-- The tail of `dstore_put_from_command` after the `FORWARD_PUT` parse
block (dstore.c lines 1541 onward): the propagation handlers, then the
`strncmp(command, "PUT ", 4)` gate — which rejects every command that does
not literally start with `PUT `, including the `FORWARD_PUT` commands that
fell through — then the `PUT key=value` parse and application. -/
def dstore_put_tail (cmd : String) (st : DState) : DState :=
  if startsWithChars "PROPAGATE_ADD ".data cmd.data then
    dstore_handle_propagated_add cmd st
  else if startsWithChars "PROPAGATE_REMOVE ".data cmd.data then
    dstore_handle_propagated_remove cmd st
  else if startsWithChars "PUT ".data cmd.data then
    match splitFirst '=' (cmd.data.drop 4) with
    | none => st
    | some kv =>
      if kv.1.length = 0 then st
      else if MAX_KEY_SIZE ≤ kv.1.length then st
      else if MAX_VALUE_SIZE ≤ kv.2.length then st
      else dstore_apply_put (String.mk kv.1) (String.mk kv.2) st
  else st

/-- dstore.c `dstore_put_from_command`: dispatch on the command prefix.
`LEADER_ELECTED` persists and broadcasts the leader snapshot; `LEADER`
persists it; a `FORWARD_PUT` command has its key=value parsed and then
falls through to `dstore_put_tail` with the original command text (where
the `PUT ` prefix gate rejects it); everything else goes to the tail
directly. -/
def dstore_put_from_command (cmd : String) (st : DState) : DState :=
  if st.cluster.node_count = 0 then st
  else if startsWithChars "LEADER_ELECTED ".data cmd.data then
    let params := cmd.data.drop 15
    match splitFirst ' ' params with
    | none => st
    | some pr =>
      let term := atoiChars params
      let leader_id := atoiChars pr.2
      if 0 ≤ term ∧ 0 ≤ leader_id then
        let key := "rale_leader_term_" ++ toString term
        let st1 := { st with
          db := (db_insert st.db (strBytes key) (strBytes (toString leader_id))).2 }
        let st2 := { st1 with
          raleFile := write_rale_state_leader term leader_id st1.raleFile }
        dstore_broadcast_leader_snapshot term leader_id st2
      else st
  else if startsWithChars "LEADER ".data cmd.data then
    let params := cmd.data.drop 7
    match splitFirst ' ' params with
    | none => st
    | some pr =>
      let term := atoiChars params
      let leader_id := atoiChars pr.2
      if 0 ≤ term ∧ 0 ≤ leader_id then
        { st with raleFile := write_rale_state_leader term leader_id st.raleFile }
      else st
  else if startsWithChars "FORWARD_PUT ".data cmd.data then
    match splitFirst '=' (cmd.data.drop 12) with
    | none => st
    | some kv =>
      if kv.1.length = 0 then st
      else if MAX_KEY_SIZE ≤ kv.1.length then st
      else if MAX_VALUE_SIZE ≤ kv.2.length then st
      else dstore_put_tail cmd st
  else dstore_put_tail cmd st

/-- Node 1 of the three-node example cluster. -/
def node1 : Node :=
  { id := 1, name := "n1", ip := "10.0.0.1", rale_port := 5001, dstore_port := 6001 }

/-- Node 2 of the three-node example cluster. -/
def node2 : Node :=
  { id := 2, name := "n2", ip := "10.0.0.2", rale_port := 5002, dstore_port := 6002 }

/-- Node 3 of the three-node example cluster. -/
def node3 : Node :=
  { id := 3, name := "n3", ip := "10.0.0.3", rale_port := 5003, dstore_port := 6003 }

/-- The canonical three-node registry, ids 1, 2, 3 in slots 0, 1, 2, with
this node being id 1. -/
def cluster123 : Cluster :=
  { nodes := fun i => if i = 0 then node1 else if i = 1 then node2
      else if i = 2 then node3 else emptyNode,
    node_count := 3, self_id := 1 }

/-- Node 1's DStore state with outbound clients connected to both peers
(slots 1 and 2) and a `rale.state` naming itself leader at term 1. -/
def dstate1 : DState :=
  { cluster := cluster123, db := hash_empty, journal := [],
    raleFile := some [1, 0, 1, 0, 0],
    clientConn := fun i => i == 1 || i == 2,
    connStatus := fun _ => false,
    serverClients := fun _ => -1,
    sentClient := [], sentServer := [] }

/-- C5: `dstore_replicate_to_followers` skips by **array index** equal to
`self_id`. On the canonical registry (ids 1,2,3 in slots 0,1,2, self id 1,
both peers connected) the leader sends `PUT color=blue` only to slot 2
(node 3): slot 1 holds the connected peer node 2 — whose id differs from
`self_id` — and receives nothing, so the recipients are not the connected
non-self peers {2, 3} the claim requires. -/
theorem C5_replicate_skips_by_index :
    (dstore_replicate_to_followers "color" "blue" dstate1).sentClient =
      [(2, "PUT color=blue")] ∧
    (cluster123.nodes 1).id = 2 ∧
    dstate1.clientConn 1 = true ∧
    (cluster123.nodes 1).id ≠ cluster123.self_id := by
  refine ⟨by decide, by decide, by decide, by decide⟩

/-- Node 1's DStore state as the current leader at term 3 (its
`rale.state` holds `3 0 1 0 0` and its `self_id` is 1). -/
def dstate2 : DState :=
  { cluster := cluster123, db := hash_empty, journal := [],
    raleFile := some [3, 0, 1, 0, 0],
    clientConn := fun i => i == 1 || i == 2,
    connStatus := fun _ => false,
    serverClients := fun _ => -1,
    sentClient := [], sentServer := [] }

/-- C2: the node is the current leader, yet `dstore_put_from_command` on
`FORWARD_PUT color=blue` leaves the state completely unchanged — no KV
insert, no `rale.db` append, no replication. The `FORWARD_PUT` block
parses the pair and falls through, but the subsequent
`strncmp(command, "PUT ", 4)` gate rejects the command. -/
theorem C2_forward_put_dropped_by_leader :
    dstore_is_current_leader dstate2 = true ∧
    dstore_put_from_command "FORWARD_PUT color=blue" dstate2 = dstate2 := by
  exact ⟨by decide, rfl⟩

/-- Node 1's DStore state with persisted `current_term` 5. -/
def dstate3 : DState :=
  { cluster := cluster123, db := hash_empty, journal := [],
    raleFile := some [5, 0, 1, 0, 0],
    clientConn := fun i => i == 1 || i == 2,
    connStatus := fun _ => false,
    serverClients := fun _ => -1,
    sentClient := [], sentServer := [] }

/-- C3: receiving the leader snapshot `LEADER 0 1` — exactly the message
peers emit with the hardcoded placeholder term 0 on connection
establishment (dstore.c `dstore_server_on_connection` and
`dstore_send_cluster_snapshot_to_target_idx`) — rewrites `rale.state`
with `current_term = 0` although the previously persisted term was 5:
the persisted term decreases across this persistence barrier. -/
theorem C3_leader_snapshot_regresses_term :
    (readFields dstate3.raleFile).ct = 5 ∧
    (dstore_put_from_command "LEADER 0 1" dstate3).raleFile = some [0, 0, 1, 0, 0] ∧
    (readFields (dstore_put_from_command "LEADER 0 1" dstate3).raleFile).ct <
      (readFields dstate3.raleFile).ct := by
  refine ⟨by decide, by decide, by decide⟩

/-- C10: whenever any of the five fields parsed back from `rale.state` is
negative, `dstore_is_current_leader` answers "not leader" and
`dstore_get_current_leader` answers "no leader" — in particular for any
file written by `rale_state_save` from a state with `voted_for = -1`, no
matter what `leader_id` the file records. -/
theorem C10_negative_fields_mean_no_leader :
    (∀ st : DState, ∀ toks : List Int, st.raleFile = some toks →
      (toks.getD 0 (-1) < 0 ∨ toks.getD 1 (-1) < 0 ∨ toks.getD 2 (-1) < 0 ∨
        toks.getD 3 (-1) < 0 ∨ toks.getD 4 (-1) < 0) →
      dstore_is_current_leader st = false ∧ dstore_get_current_leader st = -1) ∧
    (∀ st : DState, ∀ s : RaleState, s.voted_for < 0 →
      st.raleFile = some (rale_state_save s) →
      dstore_is_current_leader st = false ∧ dstore_get_current_leader st = -1) := by
  have main : ∀ st : DState, ∀ toks : List Int, st.raleFile = some toks →
      (toks.getD 0 (-1) < 0 ∨ toks.getD 1 (-1) < 0 ∨ toks.getD 2 (-1) < 0 ∨
        toks.getD 3 (-1) < 0 ∨ toks.getD 4 (-1) < 0) →
      dstore_is_current_leader st = false ∧ dstore_get_current_leader st = -1 := by
    intro st toks hf hneg
    have hp : dstore_parse_rale_state st.raleFile = none := by
      rw [hf]
      show (if toks.getD 0 (-1) < 0 ∨ toks.getD 1 (-1) < 0 ∨ toks.getD 2 (-1) < 0 ∨
            toks.getD 3 (-1) < 0 ∨ toks.getD 4 (-1) < 0 then none
          else some (⟨toks.getD 0 (-1), toks.getD 1 (-1), toks.getD 2 (-1),
            toks.getD 3 (-1), toks.getD 4 (-1)⟩ : RaleFileFields)) = none
      rw [if_pos hneg]
    exact ⟨by simp [dstore_is_current_leader, hp],
           by simp [dstore_get_current_leader, hp]⟩
  refine ⟨main, ?_⟩
  intro st s hv hf
  exact main st (rale_state_save s) hf
    (Or.inr (Or.inl (by simpa [rale_state_save] using hv)))

/-- A `rale.state` written with `voted_for = -1` while naming this node
(id 1) as leader. -/
def votedForSentinelState : RaleState :=
  { current_term := 4, voted_for := -1, leader_id := 1, last_log_index := 0,
    last_log_term := 0, role := Role.leader, election_deadline := 0,
    election_active := false, votes_received := 0 }

/-- Node 1's DStore state whose `rale.state` is exactly
`rale_state_save votedForSentinelState` (i.e. `4 -1 1 0 0`). -/
def dstate4 : DState :=
  { cluster := cluster123, db := hash_empty, journal := [],
    raleFile := some (rale_state_save votedForSentinelState),
    clientConn := fun i => i == 1 || i == 2,
    connStatus := fun _ => false,
    serverClients := fun _ => -1,
    sentClient := [], sentServer := [] }

/-- Witness for C10: the file `4 -1 1 0 0` names node 1 (this node) as
leader, yet both leader queries reject it because `voted_for` is `-1`. -/
theorem C10_negative_fields_witness :
    (readFields dstate4.raleFile).lid = dstate4.cluster.self_id ∧
    dstore_is_current_leader dstate4 = false ∧
    dstore_get_current_leader dstate4 = -1 :=
  ⟨by decide,
   (C10_negative_fields_mean_no_leader.2 dstate4 votedForSentinelState (by decide) rfl).1,
   (C10_negative_fields_mean_no_leader.2 dstate4 votedForSentinelState (by decide) rfl).2⟩

end Rale

